import Mathlib

/-!
Verification of the web-scraper worker (`src/worker/scraper.py`).

Shallow embedding: the Playwright engine is modelled as an environment of
action outcomes (`Except String _` for calls that may raise, `Option String`
for attribute reads that may return `None`).  Python dictionaries with string
keys are association lists with insertion order and in-place update, matching
CPython's ordered-dict semantics.  Machine integers do not overflow in any
code path the claims touch, so `Int`/`Nat` are used directly.
-/

/-- A Python exception is modelled by its message (`str(e)`). -/
abbrev Err := String

/-- A Python dict with string keys whose values are `str` or `None`
(insertion-ordered, update-in-place). -/
abbrev Dict := List (String × Option String)

/-- Python dict assignment `d[k] = v`: update the entry in place when the
key exists (keeping its original position), otherwise append at the end.
Every dict in this development is built by this operation starting from
`[]`, so keys are unique and updating the first occurrence is updating the
only one. -/
def dictInsert (d : Dict) (k : String) (v : Option String) : Dict :=
  match d with
  | [] => [(k, v)]
  | p :: rest => if p.1 == k then (k, v) :: rest else p :: dictInsert rest k v

/-- Python dict lookup `d.get(k)`: the value at the (unique) entry for `k`,
or `none` when the key is absent. -/
def dictLookup (d : Dict) (k : String) : Option (Option String) :=
  match d with
  | [] => none
  | p :: rest => if p.1 == k then some p.2 else dictLookup rest k

/-- Python truthiness of an optional string: `None` and `""` are falsy. -/
def truthy (o : Option String) : Bool :=
  match o with
  | none => false
  | some s => s != ""

/-- The `ScrapeResult` record built by `WebScraper.scrape` (lines 84-93):
the dict literal initializes all eight keys up front, so the record type has
all eight fields by construction. -/
structure ScrapeResult where
  url : String
  html : Option String
  title : Option String
  meta : Dict
  status_code : Option Int
  timestamp : String
  success : Bool
  error : Option String
deriving Repr, DecidableEq

/-- The mutable state of a `WebScraper` object: configuration plus the three
engine handles.  `playwright` is `none` while the attribute is unset
(`hasattr(self, 'playwright')` is false before `_initialize_browser` runs);
handles are opaque identifiers. -/
structure WebScraper where
  headless : Bool
  timeout : Int
  browser : Option Nat
  context : Option Nat
  playwright : Option Nat
deriving Repr, DecidableEq

/-- `WebScraper.__init__(headless, timeout=30000)`: handles unset. -/
def WebScraper.init (headless : Bool) (timeout : Int) : WebScraper :=
  { headless := headless, timeout := timeout,
    browser := none, context := none, playwright := none }

/-- Environment for `_initialize_browser`: outcomes of starting the driver,
launching the browser, and creating the context.  A successful outcome
carries the fresh handle. -/
structure InitEnv where
  start : Except Err Nat
  launch : Except Err Nat
  new_context : Except Err Nat
deriving Repr

/-- `WebScraper._initialize_browser` (lines 46-53): starts Playwright,
launches a browser, creates a context, assigning each handle in turn — with
no guard against an already-open session.  A failure propagates (the method
has no try/except); the error carries the partially mutated state. -/
def _initialize_browser (st : WebScraper) (env : InitEnv) :
    Except (Err × WebScraper) WebScraper :=
  match env.start with
  | .error e => .error (e, st)
  | .ok p =>
    let st1 := { st with playwright := some p }
    match env.launch with
    | .error e => .error (e, st1)
    | .ok b =>
      let st2 := { st1 with browser := some b }
      match env.new_context with
      | .error e => .error (e, st2)
      | .ok c => .ok { st2 with context := some c }

/-- The three attribute reads performed on one `<meta>` element
(lines 150-152); each `get_attribute` call may raise or return `None`. -/
structure MetaTagReads where
  name : Except Err (Option String)
  property : Except Err (Option String)
  content : Except Err (Option String)
deriving Repr

/-- Environment for `_extract_metadata`: outcomes of the DOM queries.
`query_canonical`/`query_html` may raise; when the element is present the
inner value is the outcome of the subsequent attribute read. -/
structure ExtractEnv where
  query_meta : Except Err (List MetaTagReads)
  query_canonical : Except Err (Option (Except Err (Option String)))
  query_html : Except Err (Option (Except Err (Option String)))
deriving Repr

/-- The `for meta in meta_tags` loop (lines 149-157): read `name`,
`property`, `content` in order (any read may raise, carrying the dict
collected so far to the handler); insert under `name` when `name` and
`content` are truthy, else under `property` when it and `content` are
truthy. -/
def metaTagLoop (tags : List MetaTagReads) (d : Dict) : Except (Err × Dict) Dict :=
  match tags with
  | [] => .ok d
  | t :: rest =>
    match t.name with
    | .error e => .error (e, d)
    | .ok name =>
      match t.property with
      | .error e => .error (e, d)
      | .ok property =>
        match t.content with
        | .error e => .error (e, d)
        | .ok content =>
          let d1 :=
            if truthy name && truthy content then
              dictInsert d (name.getD ("")) content
            else if truthy property && truthy content then
              dictInsert d (property.getD ("")) content
            else d
          metaTagLoop rest d1

/-- Lines 164-169: look up the `<html>` element; when present read `lang`
(may raise) and record it under `language` when truthy. -/
def languageStep (env : ExtractEnv) (d : Dict) : Except (Err × Dict) Dict :=
  match env.query_html with
  | .error e => .error (e, d)
  | .ok none => .ok d
  | .ok (some langRead) =>
    match langRead with
    | .error e => .error (e, d)
    | .ok lang =>
      .ok (if truthy lang then dictInsert d ("language") lang else d)

/-- The body of the `try` block of `_extract_metadata` (lines 145-169):
meta-tag loop, then canonical link (the `href` value is stored unguarded —
it may be `None`), then language.  An error carries the partial dict. -/
def extractTry (env : ExtractEnv) (d : Dict) : Except (Err × Dict) Dict :=
  match env.query_meta with
  | .error e => .error (e, d)
  | .ok tags =>
    match metaTagLoop tags d with
    | .error p => .error p
    | .ok d1 =>
      match env.query_canonical with
      | .error e => .error (e, d1)
      | .ok none => languageStep env d1
      | .ok (some hrefRead) =>
        match hrefRead with
        | .error e => .error (e, d1)
        | .ok href => languageStep env (dictInsert d1 ("canonical") href)

/-- `WebScraper._extract_metadata` (lines 133-174): run the try block from
an empty dict; on any failure record `str(e)` under `extraction_error` in
the partial dict and return it.  The method itself never raises. -/
def _extract_metadata (env : ExtractEnv) : Dict :=
  match extractTry env [] with
  | .ok d => d
  | .error (e, d) => dictInsert d ("extraction_error") (some e)

/-- The navigation response object (`response.status`). -/
structure NavResponse where
  status : Int
deriving Repr

/-- Environment for one page-scrape attempt: outcomes of the engine calls
made by `scrape`.  `goto` may raise, or succeed with or without a response
object; `page_url` is the value of `page.url` after navigation. -/
structure ScrapeEnv where
  new_page : Except Err Unit
  goto : Except Err (Option NavResponse)
  page_url : String
  wait_selector : Except Err Unit
  content : Except Err String
  title : Except Err String
  extract : ExtractEnv
deriving Repr

/-- The fresh result dict (lines 84-93): all eight keys initialized. -/
def initResult (url ts : String) : ScrapeResult :=
  { url := url, html := none, title := none, meta := [],
    status_code := none, timestamp := ts, success := false, error := none }

/-- The `try` block of `scrape` (lines 95-118), threading the result record
through each step; an error carries the partially updated record.  Note the
update order: status code and resolved URL are recorded right after
navigation (lines 103-105), before the selector wait; `html` is captured
(line 112) before `title` (line 113), so a title-read failure leaves `html`
populated.  `_extract_metadata` is total, so it raises nothing here. -/
def scrapeTry (sel : Option String) (env : ScrapeEnv) (r : ScrapeResult) :
    Except (Err × ScrapeResult) ScrapeResult :=
  match env.new_page with
  | .error e => .error (e, r)
  | .ok _ =>
    match env.goto with
    | .error e => .error (e, r)
    | .ok resp =>
      let r1 :=
        match resp with
        | some resp => { r with status_code := some resp.status, url := env.page_url }
        | none => r
      match (match sel with | some _ => env.wait_selector | none => .ok ()) with
      | .error e => .error (e, r1)
      | .ok _ =>
        match env.content with
        | .error e => .error (e, r1)
        | .ok html =>
          let r2 := { r1 with html := some html }
          match env.title with
          | .error e => .error (e, r2)
          | .ok t =>
            .ok { r2 with title := some t,
                          meta := _extract_metadata env.extract,
                          success := true }

/-- The result record `scrape` returns for given URL, selector, timestamp
and engine outcomes: the try block, with the except clause (lines 120-122)
recording `str(e)` and `success = False` on the partial record.  The
`finally` clause only closes the page, swallowing any failure (lines
124-129); it touches neither the record nor the scraper state. -/
def scrape_result (url : String) (sel : Option String) (ts : String)
    (env : ScrapeEnv) : ScrapeResult :=
  match scrapeTry sel env (initResult url ts) with
  | .ok r => r
  | .error (e, r) => { r with error := some e, success := false }

/-- `WebScraper.scrape` (lines 55-131): lazy initialization when `browser`
or `context` is unset (lines 80-81, outside the try block, so an
initialization failure propagates to the caller), then the guarded body.
Returns the possibly updated scraper state together with the result. -/
def scrape (st : WebScraper) (url : String) (sel : Option String)
    (ts : String) (ienv : InitEnv) (env : ScrapeEnv) :
    Except Err (WebScraper × ScrapeResult) :=
  match (if st.browser.isNone || st.context.isNone
         then _initialize_browser st ienv
         else .ok st) with
  | .error (e, _) => .error e
  | .ok st1 => .ok (st1, scrape_result url sel ts env)

/-- The three teardown calls `close` can make, in source order. -/
inductive CloseAction where
  | closeContext
  | closeBrowser
  | stopPlaywright
deriving Repr, DecidableEq

/-- Environment for `close`: the outcome each teardown call would have, were
it attempted (e.g. an already-closed handle raises). -/
structure CloseEnv where
  context_close : Except Err Unit
  browser_close : Except Err Unit
  playwright_stop : Except Err Unit
deriving Repr

/-- One `try`/`except Exception: pass` teardown step: any failure of the
attempted call is suppressed. -/
def suppress (out : Except Err Unit) : Except Err Unit :=
  match out with
  | .ok _ => .ok ()
  | .error _ => .ok ()

/-- `WebScraper.close` (lines 176-194): attempt `context.close()`, then
`browser.close()`, then `playwright.stop()`, each guarded by presence of the
handle and each wrapped in its own `try`/`except Exception: pass`.  The
method assigns no attribute, so the scraper state is unchanged; the returned
trace records which teardown calls were attempted, in order. -/
def close (st : WebScraper) (env : CloseEnv) : Except Err (List CloseAction) :=
  match (if st.context.isSome then suppress env.context_close else .ok ()) with
  | .error e => .error e
  | .ok _ =>
    match (if st.browser.isSome then suppress env.browser_close else .ok ()) with
    | .error e => .error e
    | .ok _ =>
      match (if st.playwright.isSome then suppress env.playwright_stop else .ok ()) with
      | .error e => .error e
      | .ok _ =>
        .ok ((if st.context.isSome then [CloseAction.closeContext] else [])
          ++ (if st.browser.isSome then [CloseAction.closeBrowser] else [])
          ++ (if st.playwright.isSome then [CloseAction.stopPlaywright] else []))

/-! ## Batch coordinator (`scrape_urls_batch`, lines 264-295)

`asyncio.gather(*tasks)` runs one task per URL (in input order of task
creation) and places each task's value at the task's own index, whatever
order the tasks complete in.  Completion order is modelled by an explicit
schedule `order : List Nat`: tasks are settled one at a time in that order,
each settling storing its result in its own slot.  The per-task body
`scrape_with_limit` acquires the semaphore (modelled separately as a step
relation below — it gates timing only, never values) and then calls
`scraper.scrape(url)` with the shared scraper state, which is threaded
through in schedule order. -/

/-- Settle the scheduled tasks one at a time: task `i` scrapes `urls[i]`
with the shared scraper state and writes its result into slot `i`.  Indices
out of range are ignored (a real schedule contains each task index once). -/
def runBatch (st : WebScraper) (urls : List String) (ienv : InitEnv)
    (envs : Nat → ScrapeEnv) (tss : Nat → String) (order : List Nat)
    (slots : Nat → Option ScrapeResult) :
    Except Err (WebScraper × (Nat → Option ScrapeResult)) :=
  match order with
  | [] => .ok (st, slots)
  | i :: rest =>
    if h : i < urls.length then
      match scrape st (urls.get ⟨i, h⟩) none (tss i) ienv (envs i) with
      | .error e => .error e
      | .ok (st1, r) =>
        runBatch st1 urls ienv envs tss rest
          (fun j => if j = i then some r else slots j)
    else runBatch st urls ienv envs tss rest slots

/-- `asyncio.gather`'s return value: the slot values for tasks `0..n-1` in
task order.  `none` when some task has not completed (gather awaits all
tasks, so a complete schedule never hits it). -/
def collectSlots (slots : Nat → Option ScrapeResult) : Nat → Option (List ScrapeResult)
  | 0 => some []
  | n + 1 =>
    match collectSlots slots n, slots n with
    | some l, some r => some (l ++ [r])
    | _, _ => none

/-- `scrape_urls_batch(urls, headless, max_concurrent)` (lines 264-295):
enter `WebScraper(headless=headless)` (default timeout 30000), which runs
`_initialize_browser` — a launch failure aborts the whole batch; run one
gated scrape task per URL under schedule `order`; gather the slot values in
task order; `__aexit__` closes the session.  `max_concurrent` only
constrains which schedules the semaphore admits, not any value computed
here, so the schedule is a parameter. -/
def scrape_urls_batch (urls : List String) (headless : Bool)
    (ienv : InitEnv) (cenv : CloseEnv) (envs : Nat → ScrapeEnv)
    (tss : Nat → String) (order : List Nat) :
    Except Err (List ScrapeResult) :=
  match _initialize_browser (WebScraper.init headless 30000) ienv with
  | .error (e, _) => .error e
  | .ok st =>
    match runBatch st urls ienv envs tss order (fun _ => none) with
    | .error e => .error e
    | .ok (stF, slots) =>
      match collectSlots slots urls.length with
      | none => .error ("pending")
      | some results =>
        match close stF cenv with
        | .error e => .error e
        | .ok _ => .ok results

/-! ## Concurrency gate (`asyncio.Semaphore(max_concurrent)`, lines 287-291)

Each `scrape_with_limit` task is `waiting` until it acquires the semaphore,
`active` while it holds it (page open / navigating / extracting), and `done`
once it releases it.  The step relation below is the semaphore protocol:
acquire decrements a positive count, release increments it. -/

inductive TaskPhase where
  | waiting
  | active
  | done
deriving Repr, DecidableEq

/-- State of a batch in flight: the semaphore count and each task's phase. -/
structure BatchState where
  sem : Nat
  tasks : List TaskPhase
deriving Repr, DecidableEq

/-- Initial state of `scrape_urls_batch` with limit `k` and `n` tasks:
`asyncio.Semaphore(k)` fresh, every task submitted and waiting. -/
def batchInit (k n : Nat) : BatchState :=
  { sem := k, tasks := List.replicate n TaskPhase.waiting }

/-- Number of tasks currently holding the semaphore. -/
def activeCount (ts : List TaskPhase) : Nat :=
  ts.countP (fun t => t == TaskPhase.active)

/-- One scheduler step: a waiting task acquires the semaphore when the count
is positive (`async with semaphore` entry), or an active task finishes its
scrape and releases it (`async with` exit). -/
inductive BatchStep : BatchState → BatchState → Prop where
  | acquire (s : BatchState) (i : Nat) (hi : i < s.tasks.length)
      (hw : s.tasks.get ⟨i, hi⟩ = TaskPhase.waiting) (hs : 0 < s.sem) :
      BatchStep s { sem := s.sem - 1, tasks := s.tasks.set i TaskPhase.active }
  | release (s : BatchState) (i : Nat) (hi : i < s.tasks.length)
      (ha : s.tasks.get ⟨i, hi⟩ = TaskPhase.active) :
      BatchStep s { sem := s.sem + 1, tasks := s.tasks.set i TaskPhase.done }

/-- Whether a `scrape` call returned normally (`.ok`) rather than raising. -/
def isOkResult (x : Except Err (WebScraper × ScrapeResult)) : Bool :=
  match x with
  | .ok _ => true
  | .error _ => false

/-- Every value recorded in a metadata dict is a string, except possibly
under the `canonical` key (whose value is an unguarded `get_attribute`
read). -/
def metaValuesOk (d : Dict) : Prop :=
  ∀ q ∈ d, q.1 ≠ ("canonical") → q.2.isSome = true

/-! ### Concrete fixtures for counterexamples and witnesses -/

/-- A scraper whose session is open: all three handles set. -/
def stOpen : WebScraper :=
  { headless := true, timeout := 30000,
    browser := some 1, context := some 2, playwright := some 3 }

/-- Engine outcomes for a successful session launch (fresh handles). -/
def ienvOk : InitEnv :=
  { start := .ok 10, launch := .ok 11, new_context := .ok 12 }

/-- A page with no meta tags, no canonical link, no html element found. -/
def eenvEmpty : ExtractEnv :=
  { query_meta := .ok [], query_canonical := .ok none, query_html := .ok none }

/-- Extraction whose very first DOM query raises. -/
def eenvFail : ExtractEnv :=
  { query_meta := .error ("dom gone"), query_canonical := .ok none,
    query_html := .ok none }

/-- A page with one `description` meta tag and a `lang` attribute. -/
def eenvTagged : ExtractEnv :=
  { query_meta := .ok [{ name := .ok (some ("description")),
                         property := .ok none,
                         content := .ok (some ("hi")) }],
    query_canonical := .ok none,
    query_html := .ok (some (.ok (some ("en")))) }

/-- A canonical link element present but with no `href` attribute. -/
def eenvCanonNone : ExtractEnv :=
  { query_meta := .ok [], query_canonical := .ok (some (.ok none)),
    query_html := .ok none }

/-- A fully successful page scrape (response 200, redirect to `http://f/`). -/
def envOk : ScrapeEnv :=
  { new_page := .ok (), goto := .ok (some { status := 200 }),
    page_url := ("http://f/"), wait_selector := .ok (),
    content := .ok ("<html></html>"), title := .ok ("T"),
    extract := eenvEmpty }

/-- Navigation succeeds without a response object, content is captured,
then the title read raises. -/
def envTitleFail : ScrapeEnv :=
  { new_page := .ok (), goto := .ok none,
    page_url := ("http://a/"), wait_selector := .ok (),
    content := .ok ("<html></html>"), title := .error ("title read failed"),
    extract := eenvEmpty }

/-- Navigation succeeds with a 301 redirect to `http://b/`, then the
selector wait times out. -/
def envSelFail : ScrapeEnv :=
  { new_page := .ok (), goto := .ok (some { status := 301 }),
    page_url := ("http://b/"), wait_selector := .error ("selector timeout"),
    content := .ok ("<x>"), title := .ok ("T"),
    extract := eenvEmpty }

/-- A scrape whose page succeeds but whose metadata extraction fails. -/
def envExtractFail : ScrapeEnv :=
  { new_page := .ok (), goto := .ok (some { status := 200 }),
    page_url := ("http://f/"), wait_selector := .ok (),
    content := .ok ("<x>"), title := .ok ("T"),
    extract := eenvFail }

/-- The result record of the title-read-failure scrape. -/
def rTitleFail : ScrapeResult :=
  scrape_result ("http://a/") none ("t") envTitleFail

/-- Teardown outcomes where every engine call succeeds. -/
def cenvOk : CloseEnv :=
  { context_close := .ok (), browser_close := .ok (), playwright_stop := .ok () }

/-! ## Helper lemmas -/

theorem dictLookup_dictInsert_self (d : Dict) (k : String) (v : Option String) :
    dictLookup (dictInsert d k v) k = some v := by
  induction d with
  | nil => simp [dictInsert, dictLookup]
  | cons p rest ih =>
    cases h : p.1 == k with
    | true => simp [dictInsert, dictLookup, h]
    | false => simp [dictInsert, dictLookup, h, ih]

theorem dictLookup_dictInsert_other (d : Dict) (k k' : String) (v : Option String)
    (hk : k' ≠ k) : dictLookup (dictInsert d k v) k' = dictLookup d k' := by
  induction d with
  | nil =>
    have : (k == k') = false := by simp [hk.symm]
    simp [dictInsert, dictLookup, this]
  | cons p rest ih =>
    cases h : p.1 == k with
    | true =>
      have hp : p.1 = k := by simpa using h
      have h1 : (k == k') = false := by simp [hk.symm]
      simp [dictInsert, dictLookup, h, hp, h1]
    | false => simp [dictInsert, dictLookup, h, ih]

theorem mem_dictInsert (d : Dict) (k : String) (v : Option String)
    (q : String × Option String) (hq : q ∈ dictInsert d k v) :
    q = (k, v) ∨ q ∈ d := by
  induction d with
  | nil => simp [dictInsert] at hq; simp [hq]
  | cons p rest ih =>
    cases h : p.1 == k with
    | true =>
      simp [dictInsert, h] at hq
      rcases hq with hq | hq
      · exact Or.inl (by simp [hq])
      · exact Or.inr (by simp [hq])
    | false =>
      simp [dictInsert, h] at hq
      rcases hq with hq | hq
      · exact Or.inr (by simp [hq])
      · rcases ih hq with h1 | h1
        · exact Or.inl h1
        · exact Or.inr (by simp [h1])

theorem truthy_isSome (o : Option String) (h : truthy o = true) :
    o.isSome = true := by
  cases o <;> simp [truthy] at h ⊢

theorem suppress_ok (x : Except Err Unit) : suppress x = .ok () := by
  cases x <;> rfl

theorem close_eq (st : WebScraper) (env : CloseEnv) :
    close st env =
      .ok ((if st.context.isSome then [CloseAction.closeContext] else [])
        ++ (if st.browser.isSome then [CloseAction.closeBrowser] else [])
        ++ (if st.playwright.isSome then [CloseAction.stopPlaywright] else [])) := by
  unfold close
  cases hc : st.context.isSome <;> cases hb : st.browser.isSome <;>
    cases hp : st.playwright.isSome <;> simp [hc, hb, hp, suppress_ok]

theorem scrape_open (st : WebScraper) (url : String) (sel : Option String)
    (ts : String) (ienv : InitEnv) (env : ScrapeEnv)
    (hb : st.browser.isSome = true) (hc : st.context.isSome = true) :
    scrape st url sel ts ienv env = .ok (st, scrape_result url sel ts env) := by
  unfold scrape
  have hb' : st.browser.isNone = false := by
    cases h : st.browser <;> simp_all
  have hc' : st.context.isNone = false := by
    cases h : st.context <;> simp_all
  rw [hb', hc']
  rfl

theorem scrape_ok_result (st st' : WebScraper) (url : String) (sel : Option String)
    (ts : String) (ienv : InitEnv) (env : ScrapeEnv) (r : ScrapeResult)
    (h : scrape st url sel ts ienv env = .ok (st', r)) :
    r = scrape_result url sel ts env := by
  unfold scrape at h
  cases hg : (if st.browser.isNone || st.context.isNone
              then _initialize_browser st ienv else .ok st) with
  | error p => rw [hg] at h; cases p; simp at h
  | ok st1 => rw [hg] at h; simp at h; exact h.2.symm

theorem init_open (st st' : WebScraper) (ienv : InitEnv)
    (h : _initialize_browser st ienv = .ok st') :
    st'.browser.isSome = true ∧ st'.context.isSome = true := by
  unfold _initialize_browser at h
  rcases hs : ienv.start with e | p <;> rw [hs] at h
  · simp at h
  rcases hl : ienv.launch with e | b <;> rw [hl] at h
  · simp at h
  rcases hn : ienv.new_context with e | c <;> rw [hn] at h
  · simp at h
  simp at h
  subst h
  simp

theorem scrape_result_success_inv (url : String) (sel : Option String)
    (ts : String) (env : ScrapeEnv) :
    ((scrape_result url sel ts env).success = true →
      (scrape_result url sel ts env).html.isSome = true ∧
      (scrape_result url sel ts env).error = none) ∧
    ((scrape_result url sel ts env).success = false →
      (scrape_result url sel ts env).error.isSome = true) := by
  obtain ⟨np, gt, pu, ws, ct, ti, ex⟩ := env
  unfold scrape_result scrapeTry initResult
  rcases np with e | u
  · simp
  rcases gt with e | resp
  · simp
  rcases resp with _ | rr <;>
    rcases sel with _ | s <;>
    rcases ws with e | _ <;> rcases ct with e | h <;> rcases ti with e | t <;> simp

theorem scrape_result_url_eq (url : String) (sel : Option String)
    (ts : String) (env : ScrapeEnv) :
    (scrape_result url sel ts env).url =
      (match env.new_page, env.goto with
       | .ok _, .ok (some _) => env.page_url
       | _, _ => url) := by
  obtain ⟨np, gt, pu, ws, ct, ti, ex⟩ := env
  unfold scrape_result scrapeTry initResult
  rcases np with e | u
  · simp
  rcases gt with e | resp
  · simp
  rcases resp with _ | rr <;>
    rcases sel with _ | s <;>
    rcases ws with e | _ <;> rcases ct with e | h <;> rcases ti with e | t <;> simp

theorem metaValuesOk_dictInsert (d : Dict) (k : String) (v : Option String)
    (hd : metaValuesOk d) (hv : k = ("canonical") ∨ v.isSome = true) :
    metaValuesOk (dictInsert d k v) := by
  intro q hq hk
  rcases mem_dictInsert d k v q hq with h | h
  · subst h
    rcases hv with hv | hv
    · exact absurd hv hk
    · exact hv
  · exact hd q h hk

theorem metaTagLoop_inv (tags : List MetaTagReads) (d : Dict)
    (hd : metaValuesOk d) :
    metaValuesOk (match metaTagLoop tags d with
                  | .ok d' => d'
                  | .error (_, d') => d') := by
  induction tags generalizing d with
  | nil => simpa [metaTagLoop] using hd
  | cons t rest ih =>
    unfold metaTagLoop
    rcases t.name with e | name
    · simpa using hd
    dsimp only
    rcases t.property with e | property
    · simpa using hd
    dsimp only
    rcases t.content with e | content
    · simpa using hd
    dsimp only
    by_cases h1 : (truthy name && truthy content) = true
    · rw [if_pos h1]
      exact ih _ (metaValuesOk_dictInsert d _ content hd
        (Or.inr (truthy_isSome content (by
          have := h1
          simp [Bool.and_eq_true] at this
          exact this.2))))
    · rw [if_neg h1]
      by_cases h2 : (truthy property && truthy content) = true
      · rw [if_pos h2]
        exact ih _ (metaValuesOk_dictInsert d _ content hd
          (Or.inr (truthy_isSome content (by
            have := h2
            simp [Bool.and_eq_true] at this
            exact this.2))))
      · rw [if_neg h2]
        exact ih _ hd

theorem languageStep_inv (env : ExtractEnv) (d : Dict)
    (hd : metaValuesOk d) :
    metaValuesOk (match languageStep env d with
                  | .ok d' => d'
                  | .error (_, d') => d') := by
  unfold languageStep
  rcases env.query_html with e | h
  · simpa using hd
  rcases h with _ | langRead
  · simpa using hd
  rcases langRead with e | lang
  · simpa using hd
  by_cases hl : truthy lang = true
  · simpa [hl] using
      metaValuesOk_dictInsert d _ lang hd (Or.inr (truthy_isSome lang hl))
  · simpa [hl] using hd

theorem extractTry_inv (env : ExtractEnv) (d : Dict) (hd : metaValuesOk d) :
    metaValuesOk (match extractTry env d with
                  | .ok d' => d'
                  | .error (_, d') => d') := by
  unfold extractTry
  rcases env.query_meta with e | tags
  · simpa using hd
  dsimp only
  have hloop := metaTagLoop_inv tags d hd
  rcases hml : metaTagLoop tags d with ⟨e, d1⟩ | d1 <;> rw [hml] at hloop
  · simpa using hloop
  · have hl1 : metaValuesOk d1 := by simpa using hloop
    rcases env.query_canonical with e | copt
    · simpa using hl1
    dsimp only
    rcases copt with _ | hrefRead
    · exact languageStep_inv env d1 hl1
    dsimp only
    rcases hrefRead with e | href
    · simpa using hl1
    exact languageStep_inv env (dictInsert d1 ("canonical") href)
      (metaValuesOk_dictInsert d1 _ href hl1 (Or.inl rfl))

theorem runBatch_open (st : WebScraper) (urls : List String) (ienv : InitEnv)
    (envs : Nat → ScrapeEnv) (tss : Nat → String)
    (hb : st.browser.isSome = true) (hc : st.context.isSome = true) :
    ∀ (order : List Nat) (slots : Nat → Option ScrapeResult),
      runBatch st urls ienv envs tss order slots =
        .ok (st, fun j =>
          if j ∈ order ∧ j < urls.length
          then some (scrape_result (urls.getD j ("")) none (tss j) (envs j))
          else slots j) := by
  intro order
  induction order with
  | nil =>
    intro slots
    unfold runBatch
    have hfun : (fun j => if j ∈ ([] : List Nat) ∧ j < urls.length
        then some (scrape_result (urls.getD j ("")) none (tss j) (envs j))
        else slots j) = slots := by
      funext j
      simp
    rw [hfun]
  | cons i rest ih =>
    intro slots
    unfold runBatch
    by_cases h : i < urls.length
    · rw [dif_pos h]
      have hget : urls.get ⟨i, h⟩ = urls.getD i ("") := by
        simp [List.getD_eq_getElem?_getD, List.getElem?_eq_getElem h]
      rw [scrape_open st _ none (tss i) ienv (envs i) hb hc, hget]
      dsimp only
      rw [ih]
      have hfun : (fun j => if j ∈ rest ∧ j < urls.length
          then some (scrape_result (urls.getD j ("")) none (tss j) (envs j))
          else if j = i
            then some (scrape_result (urls.getD i ("")) none (tss i) (envs i))
            else slots j)
          = (fun j => if j ∈ i :: rest ∧ j < urls.length
              then some (scrape_result (urls.getD j ("")) none (tss j) (envs j))
              else slots j) := by
        funext j
        by_cases hj : j ∈ rest ∧ j < urls.length
        · rw [if_pos hj, if_pos ⟨List.mem_cons_of_mem i hj.1, hj.2⟩]
        · rw [if_neg hj]
          by_cases hji : j = i
          · subst hji
            rw [if_pos rfl, if_pos ⟨List.mem_cons_self j rest, h⟩]
          · rw [if_neg hji,
              if_neg (fun hcon => hj ⟨(List.mem_cons.mp hcon.1).resolve_left hji, hcon.2⟩)]
      rw [hfun]
    · rw [dif_neg h]
      rw [ih]
      have hfun : (fun j => if j ∈ rest ∧ j < urls.length
          then some (scrape_result (urls.getD j ("")) none (tss j) (envs j))
          else slots j)
          = (fun j => if j ∈ i :: rest ∧ j < urls.length
              then some (scrape_result (urls.getD j ("")) none (tss j) (envs j))
              else slots j) := by
        funext j
        by_cases hj : j ∈ rest ∧ j < urls.length
        · rw [if_pos hj, if_pos ⟨List.mem_cons_of_mem i hj.1, hj.2⟩]
        · rw [if_neg hj]
          have hno : ¬ (j ∈ i :: rest ∧ j < urls.length) := by
            intro hcon
            rcases List.mem_cons.mp hcon.1 with hji | hjr
            · exact h (by rw [← hji]; exact hcon.2)
            · exact hj ⟨hjr, hcon.2⟩
          rw [if_neg hno]
      rw [hfun]

theorem collectSlots_complete (slots : Nat → Option ScrapeResult)
    (g : Nat → ScrapeResult) :
    ∀ (n : Nat), (∀ j, j < n → slots j = some (g j)) →
      collectSlots slots n = some ((List.range n).map g) := by
  intro n
  induction n with
  | zero =>
    intro _
    simp [collectSlots]
  | succ m ih =>
    intro h
    unfold collectSlots
    rw [ih (fun j hj => h j (Nat.lt_succ_of_lt hj)), h m (Nat.lt_succ_self m)]
    rw [List.range_succ, List.map_append]
    rfl

theorem countP_set_eq (p : TaskPhase → Bool) (x : TaskPhase) :
    ∀ (l : List TaskPhase) (i : Nat) (h : i < l.length),
      (l.set i x).countP p + (if p (l.get ⟨i, h⟩) then 1 else 0)
        = l.countP p + (if p x then 1 else 0) := by
  intro l
  induction l with
  | nil => intro i h; simp at h
  | cons a tl ih =>
    intro i h
    cases i with
    | zero =>
      simp [List.set, List.countP_cons]
      omega
    | succ m =>
      have hm : m < tl.length := by simpa using h
      have hih := ih m hm
      simp only [List.get_eq_getElem] at hih
      simp only [List.set, List.countP_cons, List.get_eq_getElem,
        List.getElem_cons_succ]
      omega

theorem activeCount_set_active (l : List TaskPhase) (i : Nat)
    (h : i < l.length) (hw : l.get ⟨i, h⟩ = TaskPhase.waiting) :
    activeCount (l.set i TaskPhase.active) = activeCount l + 1 := by
  have hcount := countP_set_eq (fun t => t == TaskPhase.active)
    TaskPhase.active l i h
  rw [hw] at hcount
  simpa [activeCount] using hcount

theorem activeCount_set_done (l : List TaskPhase) (i : Nat)
    (h : i < l.length) (ha : l.get ⟨i, h⟩ = TaskPhase.active) :
    activeCount (l.set i TaskPhase.done) + 1 = activeCount l := by
  have hcount := countP_set_eq (fun t => t == TaskPhase.active)
    TaskPhase.done l i h
  rw [ha] at hcount
  simpa [activeCount] using hcount

theorem batch_reachable_invariant (k n : Nat) (s : BatchState)
    (h : Relation.ReflTransGen BatchStep (batchInit k n) s) :
    activeCount s.tasks + s.sem = k := by
  induction h with
  | refl =>
    have hz : activeCount (List.replicate n TaskPhase.waiting) = 0 := by
      rw [activeCount, List.countP_eq_zero]
      intro a ha
      rw [List.eq_of_mem_replicate ha]
      decide
    simp [batchInit, hz]
  | tail hsteps hstep ih =>
    rename_i b c
    cases hstep with
    | acquire i hi hw hs =>
      show activeCount (b.tasks.set i TaskPhase.active) + (b.sem - 1) = k
      rw [activeCount_set_active b.tasks i hi hw]
      omega
    | release i hi ha =>
      show activeCount (b.tasks.set i TaskPhase.done) + (b.sem + 1) = k
      have hd := activeCount_set_done b.tasks i hi ha
      omega

/-! ## Claim theorems -/

/-- C1: for every list of input URLs (empty and duplicate entries allowed),
every engine environment, and every completion schedule that settles each
task (any `max_concurrent >= 1` only restricts which schedules the semaphore
admits, never the values computed), `scrape_urls_batch` returns exactly
`urls.length` results, and the `i`-th result is the Page Scrape Operation's
result on `urls[i]` — input order is preserved regardless of completion
order, which the universally quantified `order` ranges over. -/
theorem batch_preserves_order_and_length (urls : List String) (headless : Bool)
    (ienv : InitEnv) (cenv : CloseEnv) (envs : Nat → ScrapeEnv)
    (tss : Nat → String) (order : List Nat) (st0 : WebScraper)
    (hinit : _initialize_browser (WebScraper.init headless 30000) ienv = .ok st0)
    (hcomplete : ∀ i, i < urls.length → i ∈ order) :
    scrape_urls_batch urls headless ienv cenv envs tss order =
      .ok ((List.range urls.length).map
        (fun i => scrape_result (urls.getD i ("")) none (tss i) (envs i))) := by
  obtain ⟨hb, hc⟩ := init_open _ st0 ienv hinit
  unfold scrape_urls_batch
  rw [hinit]
  dsimp only
  rw [runBatch_open st0 urls ienv envs tss hb hc order (fun _ => none)]
  dsimp only
  rw [collectSlots_complete _
    (fun i => scrape_result (urls.getD i ("")) none (tss i) (envs i))
    urls.length (fun j hj => by rw [if_pos ⟨hcomplete j hj, hj⟩])]
  dsimp only
  rw [close_eq]

/-- C1 witness: a two-URL batch scheduled in reverse completion order still
returns both results in input order. -/
theorem batch_preserves_order_and_length_witness :
    scrape_urls_batch (("http://x/") :: ("http://y/") :: []) true ienvOk cenvOk
        (fun _ => envOk) (fun _ => ("t")) (1 :: 0 :: []) =
      .ok ((List.range ((("http://x/") :: ("http://y/") :: []).length)).map
        (fun i => scrape_result ((("http://x/") :: ("http://y/") :: []).getD i (""))
          none ("t") envOk)) :=
  batch_preserves_order_and_length (("http://x/") :: ("http://y/") :: []) true
    ienvOk cenvOk (fun _ => envOk) (fun _ => ("t")) (1 :: 0 :: [])
    { headless := true, timeout := 30000,
      browser := some 11, context := some 12, playwright := some 10 }
    (by rfl) (by decide)

/-- C2 counterexample: with the session open, when `page.content()` succeeds
and the subsequent `page.title()` read raises (line 113), `scrape` returns a
result with `success = false` and `html` still populated — refuting
"`success == false` implies `html is None`". -/
theorem scrape_failure_with_html_counterexample :
    scrape stOpen ("http://a/") none ("t") ienvOk envTitleFail =
      .ok (stOpen, rTitleFail) ∧
    rTitleFail.success = false ∧
    rTitleFail.html = some ("<html></html>") ∧
    rTitleFail.error = some ("title read failed") := by
  refine ⟨?_, ?_, ?_, ?_⟩ <;> rfl

/-- C2 (amended): for every result returned by `scrape`,
`success = true` implies `html` is populated and `error` is `None`, and
`success = false` implies `error` is populated; on failure `html` is `None`
unless the failure occurred after content capture (a title-read failure),
so the original claim's "`success == false` implies `html is None`" clause
is dropped. -/
theorem scrape_success_error_discipline (st st' : WebScraper) (url : String)
    (sel : Option String) (ts : String) (ienv : InitEnv) (env : ScrapeEnv)
    (r : ScrapeResult) (h : scrape st url sel ts ienv env = .ok (st', r)) :
    (r.success = true → r.html.isSome = true ∧ r.error = none) ∧
    (r.success = false → r.error.isSome = true) := by
  rw [scrape_ok_result st st' url sel ts ienv env r h]
  exact scrape_result_success_inv url sel ts env

/-- C2 witness: the discipline instantiated on a concrete successful
scrape. -/
theorem scrape_success_error_discipline_witness :
    ((scrape_result ("http://a/") none ("t") envOk).success = true →
      (scrape_result ("http://a/") none ("t") envOk).html.isSome = true ∧
      (scrape_result ("http://a/") none ("t") envOk).error = none) ∧
    ((scrape_result ("http://a/") none ("t") envOk).success = false →
      (scrape_result ("http://a/") none ("t") envOk).error.isSome = true) :=
  scrape_success_error_discipline stOpen stOpen ("http://a/") none ("t")
    ienvOk envOk (scrape_result ("http://a/") none ("t") envOk) (by rfl)

/-- C3: with an open session, `scrape` never raises past its boundary —
every engine failure mode (page creation, navigation, selector wait,
content/title read) yields a returned result, and the result record carries
all eight fields by construction (they are initialized up front at lines
84-93 of the source). -/
theorem scrape_never_raises (st : WebScraper) (url : String)
    (sel : Option String) (ts : String) (ienv : InitEnv) (env : ScrapeEnv)
    (hb : st.browser.isSome = true) (hc : st.context.isSome = true) :
    isOkResult (scrape st url sel ts ienv env) = true := by
  rw [scrape_open st url sel ts ienv env hb hc]
  rfl

/-- C3 witness: a scrape whose selector wait times out still returns
normally. -/
theorem scrape_never_raises_witness :
    isOkResult (scrape stOpen ("http://a/") (some ("h1")) ("t") ienvOk envSelFail)
      = true :=
  scrape_never_raises stOpen ("http://a/") (some ("h1")) ("t") ienvOk envSelFail
    rfl rfl

/-- C4: in every state reachable from a batch's initial state (semaphore
fresh at `k`, all tasks waiting) under the semaphore protocol, at most `k`
tasks are simultaneously active (holding an open page / navigating /
extracting). -/
theorem concurrency_cap (k n : Nat) (s : BatchState)
    (h : Relation.ReflTransGen BatchStep (batchInit k n) s) :
    activeCount s.tasks ≤ k := by
  have hinv := batch_reachable_invariant k n s h
  omega

/-- C4 witness: after one task of a three-task batch with limit 2 acquires
the semaphore, the active count is within the cap. -/
theorem concurrency_cap_witness :
    activeCount (BatchState.mk 1
      (TaskPhase.active :: TaskPhase.waiting :: TaskPhase.waiting :: [])).tasks
      ≤ 2 :=
  concurrency_cap 2 3 _
    (Relation.ReflTransGen.single
      (BatchStep.acquire (batchInit 2 3) 0 (by decide) (by decide) (by decide)))

/-- C5 counterexample: invoking the open operation (`__aenter__` /
`_initialize_browser`) on a scraper whose session is already open is not a
no-op — it launches a second browser and replaces all three handles. -/
theorem open_on_open_session_counterexample :
    _initialize_browser stOpen ienvOk =
      .ok { headless := true, timeout := 30000,
            browser := some 11, context := some 12, playwright := some 10 } ∧
    ({ headless := true, timeout := 30000,
       browser := some 11, context := some 12, playwright := some 10 } :
        WebScraper) ≠ stOpen := by
  exact ⟨rfl, by decide⟩

/-- C5 (amended): `_initialize_browser` is unguarded — on any state,
already open or not, it starts a new driver, launches a new browser and
replaces the three handles; the only idempotent path is the lazy
initialization inside `scrape` (line 80), which skips `_initialize_browser`
exactly when `browser` and `context` are both set, leaving the session
untouched. -/
theorem open_always_relaunches (st : WebScraper) (p b c : Nat) :
    _initialize_browser st { start := .ok p, launch := .ok b, new_context := .ok c } =
      .ok { st with playwright := some p, browser := some b, context := some c } ∧
    (∀ (url : String) (sel : Option String) (ts : String) (ienv : InitEnv)
       (env : ScrapeEnv), st.browser.isSome = true → st.context.isSome = true →
       scrape st url sel ts ienv env = .ok (st, scrape_result url sel ts env)) := by
  constructor
  · rfl
  · intro url sel ts ienv env hb hc
    exact scrape_open st url sel ts ienv env hb hc

/-- C5 witness: the amended behaviour at a concrete open session. -/
theorem open_always_relaunches_witness :
    _initialize_browser stOpen
        { start := .ok 10, launch := .ok 11, new_context := .ok 12 } =
      .ok { stOpen with
              playwright := some 10
              browser := some 11
              context := some 12 } ∧
    scrape stOpen ("http://a/") none ("t2") ienvOk envSelFail =
      .ok (stOpen, scrape_result ("http://a/") none ("t2") envSelFail) :=
  ⟨(open_always_relaunches stOpen 10 11 12).1,
   (open_always_relaunches stOpen 10 11 12).2 ("http://a/") none ("t2")
     ienvOk envSelFail rfl rfl⟩

/-- C6: `close` attempts the three teardown calls in source order —
context, then browser process, then driver — attempting each exactly when
its handle is present; every individual teardown failure is suppressed
(the trace, and hence the attempt of later steps, does not depend on the
outcomes in `env`), `close` itself never raises, and a second `close` on
the same (unchanged) state again returns normally with the same trace. -/
theorem close_order_suppression_idempotent (st : WebScraper)
    (env env2 : CloseEnv) :
    close st env =
      .ok ((if st.context.isSome then [CloseAction.closeContext] else [])
        ++ (if st.browser.isSome then [CloseAction.closeBrowser] else [])
        ++ (if st.playwright.isSome then [CloseAction.stopPlaywright] else [])) ∧
    close st env2 = close st env := by
  refine ⟨close_eq st env, ?_⟩
  rw [close_eq st env, close_eq st env2]

/-- C7 counterexample: a scrape whose navigation succeeds (redirecting to
`http://b/`) and whose selector wait then times out returns
`success = false` with the resolved URL, not the original input URL —
refuting "a result with success = false carries the original input URL
unchanged". -/
theorem failed_scrape_carries_resolved_url :
    scrape stOpen ("http://a/") (some ("h1")) ("t") ienvOk envSelFail =
      .ok (stOpen,
        { url := ("http://b/"), html := none, title := none, meta := [],
          status_code := some 301, timestamp := ("t"), success := false,
          error := some ("selector timeout") }) ∧
    ("http://b/") ≠ ("http://a/") := by
  exact ⟨rfl, by decide⟩

/-- C7 (amended): the result's `url` is the input URL, replaced by the
post-redirect page URL exactly when navigation returned a response object
(lines 103-105) — regardless of the result's eventual success flag. -/
theorem result_url_tracks_navigation (url : String) (sel : Option String)
    (ts : String) (env : ScrapeEnv) :
    (scrape_result url sel ts env).url =
      match env.new_page, env.goto with
      | .ok _, .ok (some _) => env.page_url
      | _, _ => url :=
  scrape_result_url_eq url sel ts env

/-- C8: when metadata extraction raises partway, the failure description is
recorded under `extraction_error` and every key collected before the
failure keeps its value; and extraction failure is non-fatal — a scrape
whose page steps succeed is marked `success = true` whatever the extraction
environment (including a failing one), its `meta` being exactly the
extractor's partial output. -/
theorem extraction_failure_nonfatal :
    (∀ (env : ExtractEnv) (e : Err) (d : Dict),
      extractTry env [] = .error (e, d) →
      dictLookup (_extract_metadata env) ("extraction_error") = some (some e) ∧
      ∀ (k : String), k ≠ ("extraction_error") →
        dictLookup (_extract_metadata env) k = dictLookup d k) ∧
    (∀ (st : WebScraper) (url : String) (ts : String) (ienv : InitEnv)
       (env : ScrapeEnv),
      st.browser.isSome = true → st.context.isSome = true →
      env.new_page = .ok () → (∃ po, env.goto = .ok po) →
      (∃ h, env.content = .ok h) → (∃ t, env.title = .ok t) →
      scrape st url none ts ienv env = .ok (st, scrape_result url none ts env) ∧
      (scrape_result url none ts env).success = true ∧
      (scrape_result url none ts env).meta = _extract_metadata env.extract) := by
  constructor
  · intro env e d h
    unfold _extract_metadata
    rw [h]
    exact ⟨dictLookup_dictInsert_self d ("extraction_error") (some e),
      fun k hk => dictLookup_dictInsert_other d ("extraction_error") k (some e) hk⟩
  · intro st url ts ienv env hb hc hnp hg hh ht
    obtain ⟨po, hgoto⟩ := hg
    obtain ⟨html, hcontent⟩ := hh
    obtain ⟨t, htitle⟩ := ht
    refine ⟨scrape_open st url none ts ienv env hb hc, ?_, ?_⟩ <;>
      · unfold scrape_result scrapeTry initResult
        cases po <;> simp [hnp, hgoto, hcontent, htitle]

/-- C8 witness: a failing extraction records its message with an empty
partial dict, and a concrete scrape with failing extraction still
succeeds. -/
theorem extraction_failure_nonfatal_witness :
    (dictLookup (_extract_metadata eenvFail) ("extraction_error") =
        some (some ("dom gone")) ∧
      ∀ (k : String), k ≠ ("extraction_error") →
        dictLookup (_extract_metadata eenvFail) k = dictLookup ([] : Dict) k) ∧
    (scrape stOpen ("http://a/") none ("t3") ienvOk envExtractFail =
        .ok (stOpen, scrape_result ("http://a/") none ("t3") envExtractFail) ∧
      (scrape_result ("http://a/") none ("t3") envExtractFail).success = true ∧
      (scrape_result ("http://a/") none ("t3") envExtractFail).meta =
        _extract_metadata envExtractFail.extract) :=
  ⟨extraction_failure_nonfatal.1 eenvFail ("dom gone") ([] : Dict) rfl,
   extraction_failure_nonfatal.2 stOpen ("http://a/") ("t3") ienvOk
     envExtractFail rfl rfl rfl ⟨some { status := 200 }, rfl⟩
     ⟨("<x>"), rfl⟩ ⟨("T"), rfl⟩⟩

/-- C9 counterexample: a page with a canonical link element that lacks an
`href` attribute yields `meta = {canonical: None}` — a `None` value,
refuting "every recorded entry has a string (non-None) value". -/
theorem canonical_value_none_counterexample :
    _extract_metadata eenvCanonNone = ((("canonical"), (none : Option String)) :: []) ∧
    ¬ (∀ q ∈ _extract_metadata eenvCanonNone, q.2.isSome = true) := by
  exact ⟨rfl, by decide⟩

/-- C9 (amended): every value recorded in the `meta` mapping is a string,
except possibly under the `canonical` key, whose value is the unguarded
`get_attribute('href')` read (line 162) and may be `None`; meta-tag
entries, `language`, and `extraction_error` always carry strings. -/
theorem meta_values_are_strings_except_canonical (env : ExtractEnv)
    (q : String × Option String) (hq : q ∈ _extract_metadata env)
    (hk : q.1 ≠ ("canonical")) : q.2.isSome = true := by
  have hempty : metaValuesOk ([] : Dict) := by
    intro r hr _
    simp at hr
  have hinv := extractTry_inv env ([] : Dict) hempty
  unfold _extract_metadata at hq
  rcases het : extractTry env ([] : Dict) with ⟨e, d⟩ | d <;> rw [het] at hinv hq
  · dsimp only at hq hinv
    exact metaValuesOk_dictInsert d ("extraction_error") (some e) hinv
      (Or.inr rfl) q hq hk
  · dsimp only at hq hinv
    exact hinv q hq hk

/-- C9 witness: a concrete meta-tag entry carries a string value. -/
theorem meta_values_are_strings_except_canonical_witness :
    (((("description") : String), some ("hi")).2.isSome = true) :=
  meta_values_are_strings_except_canonical eenvTagged
    ((("description") : String), some ("hi")) (by decide) (by decide)

/-- C10: calling `scrape` on an instance whose browser and context are open
leaves the scraper's own state — `headless`, `timeout`, and the three
handles — exactly as it was: the lazy initialization (lines 80-81) is the
only assignment to those fields and is skipped when both handles are set. -/
theorem scrape_frame_state_unchanged (st : WebScraper) (url : String)
    (sel : Option String) (ts : String) (ienv : InitEnv) (env : ScrapeEnv)
    (hb : st.browser.isSome = true) (hc : st.context.isSome = true) :
    scrape st url sel ts ienv env = .ok (st, scrape_result url sel ts env) :=
  scrape_open st url sel ts ienv env hb hc

/-- C10 witness: the state is preserved across a concrete scrape. -/
theorem scrape_frame_state_unchanged_witness :
    scrape stOpen ("http://y/") none ("t4") ienvOk envOk =
      .ok (stOpen, scrape_result ("http://y/") none ("t4") envOk) :=
  scrape_frame_state_unchanged stOpen ("http://y/") none ("t4") ienvOk envOk
    rfl rfl
